import Mathlib

/-!
Shallow embedding of the Llama-Seach pipeline (`src/app.py`,
class `SearchValidationSystem`).

External effects (HTTP requests, HTML parsing by BeautifulSoup, the Groq
chat-completion call, `json.loads`, `datetime.now()`) are modelled as
environment data passed to the embedded functions:

* the parsed HTML structures the code inspects become records
  (`Soup`, `ResultTable`, `FallbackDiv`, `Anchor`) whose fields are the
  values the corresponding BeautifulSoup lookups would return
  (`Option _` for a `find` that may return `None`, `String` for
  `get_text(strip=True)`);
* a request that may raise becomes an `Except String _` value
  (`.error e` models a raised exception caught by the surrounding
  `try/except`);
* `json.loads` becomes an oracle `String → Option JsonVal`
  (`none` models `json.JSONDecodeError`);
* the Groq call becomes an oracle `String → LLMOutcome` applied to the
  built prompt;
* `datetime.now().isoformat()` becomes a fixed `now : String`.

Python dict values are modelled by `JsonVal`; a dict field holding
`None` (e.g. `link.get('href')` when the attribute is absent) is an
`Option String`.  The number of times the Fetcher / Requester / LLM
service are invoked is returned explicitly so that the call-count
properties of the spec can be stated.
-/

set_option maxRecDepth 100000

namespace LlamaSearch

/-- JSON-like values, modelling the Python dicts and the parsed LLM
response payload. -/
inductive JsonVal where
  | str (s : String)
  | num (n : Int)
  | bool (b : Bool)
  | null
  | arr (xs : List JsonVal)
  | obj (fields : List (String × JsonVal))

/-- One search result dict as built by `fetch_duckduckgo_lite_results`
(`src/app.py` lines 61-67 and 94-100).  `url` is `link.get('href')`,
which may be `None` (the fallback strategy stores it unchecked). -/
structure SearchResult where
  url : Option String
  title : String
  description : String
  content : String
  timestamp : String
deriving DecidableEq

/-- The page soup as inspected by `_fetch_page_content` after the
`decompose` pass (`src/app.py` lines 121-133): for each candidate
container, `some texts` means the corresponding `soup.find` succeeded
and `texts` lists `p.get_text(strip=True)` for the `p`/`h1`-`h6`
elements inside it, in document order. -/
structure Soup where
  main : Option (List String)
  article : Option (List String)
  content_div : Option (List String)
  body : Option (List String)

/-- The `or`-chain selecting the main content region
(`src/app.py` lines 128-133). -/
def select_main_content (soup : Soup) : Option (List String) :=
  soup.main <|> soup.article <|> soup.content_div <|> soup.body

/-- `_fetch_page_content` (`src/app.py` lines 107-144).  `response` is
the outcome of the HTTP GET plus HTML parse: `.error e` models any
raised exception (network error, non-2xx status, timeout), caught at
lines 142-144 and turned into `""`. -/
def fetch_page_content (response : Except String Soup) (_url : String) : String :=
  match response with
  | .error _ => ""
  | .ok soup =>
    match select_main_content soup with
    | none => ""
    | some paragraphs => (String.intercalate " " paragraphs).take 5000

/-- An `<a>` element: `href` is `link.get('href')` (`none` when the
attribute is absent), `text` is `link.get_text(strip=True)`. -/
structure Anchor where
  href : Option String
  text : String
deriving DecidableEq

/-- One `<table class='result-table'>` block of the primary strategy
(`src/app.py` lines 48-56): `link_cell = some a` means the
`td.result-link` cell was found and `a` is its `find('a')` result;
`snippet_cell = some t` means the `td.result-snippet` cell was found
with text `t`. -/
structure ResultTable where
  link_cell : Option (Option Anchor)
  snippet_cell : Option String

/-- One `<div class='result'>` block of the fallback strategy
(`src/app.py` lines 84-85): `link` is `find('a', 'result__a')`,
`snippet = some t` means `find('a', 'result__snippet')` was found with
text `t`. -/
structure FallbackDiv where
  link : Option Anchor
  snippet : Option String

/-- Environment of one `fetch_duckduckgo_lite_results` call: the parse
outcome of the primary POST (`.error` = exception caught at line 72),
of the fallback GET (`.error` = exception caught at line 102), the
per-URL page responses used by `_fetch_page_content`, and the
timestamp. -/
structure FetchEnv where
  primary : Except String (List ResultTable)
  fallback : Except String (List FallbackDiv)
  pages : String → Except String Soup
  now : String

/-- `self._fetch_page_content(url)` as invoked from the fetch loops. -/
def FetchEnv.content_of (env : FetchEnv) (u : String) : String :=
  fetch_page_content (env.pages u) u

/-- The description expression `snippet or content[:150] + "..."`
(`src/app.py` lines 64 and 97): the snippet when truthy (non-empty),
otherwise the 150-character prefix of the page content followed by
`"..."`. -/
def description_of (snippet content : String) : String :=
  if snippet = "" then content.take 150 ++ "..." else snippet

/-- The primary-strategy result loop (`src/app.py` lines 43-70):
iterate over the parsed `result-table` blocks, breaking once
`result_count >= num_results`; a listing is admitted only when the link
cell, the snippet cell and the anchor are present and
`if url and title:` holds (both truthy, i.e. `href` present and
non-empty and title non-empty). -/
def build_primary (env : FetchEnv) (num_results : Nat) :
    List ResultTable → Nat → List SearchResult
  | [], _ => []
  | table :: rest, result_count =>
    if num_results ≤ result_count then []
    else
      match table.link_cell, table.snippet_cell with
      | some link_find, some snippet =>
        match link_find with
        | some link =>
          match link.href with
          | some u =>
            if u ≠ "" ∧ link.text ≠ "" then
              { url := some u, title := link.text,
                description := description_of snippet (env.content_of u),
                content := env.content_of u,
                timestamp := env.now } ::
                build_primary env num_results rest (result_count + 1)
            else build_primary env num_results rest result_count
          | none => build_primary env num_results rest result_count
        | none => build_primary env num_results rest result_count
      | _, _ => build_primary env num_results rest result_count

/-- The fallback-strategy result loop (`src/app.py` lines 83-100):
iterate over the (already `[:num_results]`-truncated) `div.result`
blocks; a listing is admitted whenever the `result__a` anchor is
present — `url` and `title` are stored without any further check
(`_fetch_page_content(None)` raises inside its own `try` and yields
`""`, modelled by the `none` branch of `content`). -/
def build_fallback (env : FetchEnv) : List FallbackDiv → List SearchResult
  | [] => []
  | d :: rest =>
    match d.link with
    | none => build_fallback env rest
    | some link =>
      let content : String :=
        match link.href with
        | some u => env.content_of u
        | none => ""
      { url := link.href, title := link.text,
        description := description_of (d.snippet.getD "") content,
        content := content,
        timestamp := env.now } :: build_fallback env rest

/-- `fetch_duckduckgo_lite_results` (`src/app.py` lines 16-105): run
the primary strategy (an exception leaves `results` empty); if
`results` is empty, run the fallback strategy over the first
`num_results` parsed divs (an exception there returns whatever has been
collected, i.e. the empty list). -/
def fetch_duckduckgo_lite_results (env : FetchEnv) (_query : String)
    (num_results : Nat := 5) : List SearchResult :=
  let results : List SearchResult :=
    match env.primary with
    | .error _ => []
    | .ok result_tables => build_primary env num_results result_tables 0
  if results.isEmpty then
    match env.fallback with
    | .error _ => results
    | .ok divs => build_fallback env (divs.take num_results)
  else results

/-- `response.choices[i].message` of the Groq completion:
`content = none` models `message.content` being `None`. -/
structure ChoiceMsg where
  content : Option String

/-- Outcome of `groq_client.chat.completions.create`: a response with
its list of choices, or a raised exception with message `msg`
(caught at `src/app.py` lines 211-218). -/
inductive LLMOutcome where
  | ok (choices : List ChoiceMsg)
  | exn (msg : String)

/-- Python `str` of an optional string, as interpolated into the
f-string context (`str(None) = "None"`). -/
def optStr : Option String → String
  | some s => s
  | none => "None"

/-- One context line of the prompt (`src/app.py` line 153). -/
def source_line (i : Nat) (r : SearchResult) : String :=
  "Source " ++ toString (i + 1) ++ " (" ++ optStr r.url ++ "):\nTitle: " ++
    r.title ++ "\nDescription: " ++ r.description ++ "\nContent: " ++
    r.content.take 200 ++ "..."

/-- The joined context block (`src/app.py` lines 152-155). -/
def build_context (search_results : List SearchResult) : String :=
  String.intercalate "\n" (search_results.enum.map fun p => source_line p.1 p.2)

/-- The prompt f-string (`src/app.py` lines 157-176), including its
literal indentation; `\x7b`/`\x7d` are the braces produced by the
doubled braces of the f-string. -/
def build_prompt (query : String) (search_results : List SearchResult) : String :=
  "\n        Query: " ++ query ++
    "\n        \n        Context from multiple sources:\n        " ++
    build_context search_results ++
    "\n        \n        Please analyze the above information and provide:\n        1. A summary of the key findings\n        2. Validation of the information across sources\n        3. Any inconsistencies or contradictions\n        4. List of reliable reference links\n        \n        Format your response as JSON with the following structure:\n        \x7b\n            \"summary\": \"key findings\",\n            \"validation\": \"analysis of information validity\",\n            \"inconsistencies\": [\"list of any contradictions\"],\n            \"references\": [\"list of verified urls\"]\n        \x7d\n        "

/-- Placeholder returned on an empty Groq response
(`src/app.py` lines 193-198). -/
def empty_response_report : JsonVal :=
  .obj [("summary", .str "Error in validation process"),
        ("validation", .str "Empty response from Groq API"),
        ("inconsistencies", .arr []),
        ("references", .arr [])]

/-- Placeholder returned when the response content is not valid JSON
(`src/app.py` lines 204-209). -/
def invalid_json_report : JsonVal :=
  .obj [("summary", .str "Error in validation process"),
        ("validation", .str "Invalid JSON response from Groq"),
        ("inconsistencies", .arr []),
        ("references", .arr [])]

/-- Placeholder returned when the Groq call raises, carrying `str(e)`
in the `validation` field (`src/app.py` lines 213-218). -/
def llama_error_report (e : String) : JsonVal :=
  .obj [("summary", .str "Error in validation process"),
        ("validation", .str e),
        ("inconsistencies", .arr []),
        ("references", .arr [])]

/-- Error dict returned on an empty result list
(`src/app.py` line 150). -/
def no_results_report : JsonVal :=
  .obj [("error", .str "No valid search results to analyze")]

/-- `validate_with_llama` (`src/app.py` lines 147-218).  The second
component counts the `chat.completions.create` calls issued
(an `.exn` outcome still counts as an issued call). -/
def validate_with_llama (parse : String → Option JsonVal)
    (llm : String → LLMOutcome) (query : String)
    (search_results : List SearchResult) : JsonVal × Nat :=
  if search_results.isEmpty then (no_results_report, 0)
  else
    match llm (build_prompt query search_results) with
    | .exn e => (llama_error_report e, 1)
    | .ok choices =>
      match choices with
      | [] => (empty_response_report, 1)
      | choice :: _ =>
        match choice.content with
        | none => (empty_response_report, 1)
        | some content =>
          if content = "" then (empty_response_report, 1)
          else
            match parse content with
            | none => (invalid_json_report, 1)
            | some parsed => (parsed, 1)

/-- The `final_results` envelope assembled and cached by
`search_and_validate` (`src/app.py` lines 232-237). -/
structure QueryRecord where
  query : String
  timestamp : String
  search_results : List SearchResult
  validation : JsonVal

/-- Result of one `search_and_validate` call: either the
`{"error": ...}` dict or the assembled record. -/
inductive RunResult where
  | error (msg : String)
  | record (r : QueryRecord)

/-- The system state: the stored API key (standing for the constructed
Groq client) and the query-keyed cache (`src/app.py` lines 11-14). -/
structure SearchValidationSystem where
  groq_api_key : String
  search_results_cache : List (String × QueryRecord)

/-- `__init__` (`src/app.py` lines 11-14): consumes only the API key;
the cache starts empty.  There is no result-count parameter. -/
def SearchValidationSystem.init (groq_api_key : String) : SearchValidationSystem :=
  { groq_api_key := groq_api_key, search_results_cache := [] }

/-- Environment of one `search_and_validate` call. -/
structure RunEnv where
  fetchEnv : FetchEnv
  parse : String → Option JsonVal
  llm : String → LLMOutcome
  now : String

/-- Instrumented outcome of `search_and_validate`: the returned value,
the updated system state, how many times the Fetcher and the Requester
were invoked, and the `num_results` argument passed to the Fetcher
(`none` when the Fetcher was not invoked). -/
structure RunOutcome where
  result : RunResult
  system : SearchValidationSystem
  fetch_calls : Nat
  validate_calls : Nat
  fetch_num : Option Nat

/-- `search_and_validate` (`src/app.py` lines 220-240): cache hit
returns the stored record; otherwise fetch (always with the default
`num_results = 5` — line 226 passes no count), return the error
envelope on an empty result list without caching, else validate,
assemble and cache. -/
def search_and_validate (env : RunEnv) (sys : SearchValidationSystem)
    (query : String) : RunOutcome :=
  match List.lookup query sys.search_results_cache with
  | some cached => ⟨.record cached, sys, 0, 0, none⟩
  | none =>
    let search_results := fetch_duckduckgo_lite_results env.fetchEnv query 5
    if search_results.isEmpty then
      ⟨.error "No search results found", sys, 1, 0, some 5⟩
    else
      let v := validate_with_llama env.parse env.llm query search_results
      let final_results : QueryRecord :=
        { query := query, timestamp := env.now,
          search_results := search_results, validation := v.1 }
      ⟨.record final_results,
        { sys with
          search_results_cache := (query, final_results) :: sys.search_results_cache },
        1, v.2, some 5⟩

/-! ## Helper lemmas -/

theorem string_length_take (s : String) (n : Nat) :
    (s.take n).length = min n s.length := by
  rw [String.take_eq]
  show (s.data.take n).length = min n s.data.length
  exact List.length_take ..

theorem string_length_take_le (s : String) (n : Nat) : (s.take n).length ≤ n := by
  rw [string_length_take]
  exact Nat.min_le_left n s.length

/-- Every result admitted by the primary-strategy loop passed the
`if url and title:` guard — its `url` is present and non-empty and its
`title` is non-empty — and its description follows the
`snippet or content[:150] + "..."` policy applied to its own content. -/
theorem build_primary_mem_spec (env : FetchEnv) (n : Nat) :
    ∀ (tables : List ResultTable) (count : Nat) (r : SearchResult),
      r ∈ build_primary env n tables count →
        (∃ u, r.url = some u ∧ u ≠ "") ∧ r.title ≠ "" ∧
          ∃ snip, r.description = description_of snip r.content := by
  intro tables
  induction tables with
  | nil => intro count r h; simp [build_primary] at h
  | cons t rest ih =>
    intro count r h
    obtain ⟨lc, sc⟩ := t
    by_cases hc : n ≤ count
    · simp only [build_primary, if_pos hc] at h
      simp at h
    · rcases lc with _ | (_ | ⟨_ | u, text⟩) <;> rcases sc with _ | snip <;>
        simp only [build_primary, if_neg hc] at h <;>
        try exact ih count r h
      by_cases hg : u ≠ "" ∧ text ≠ ""
      · rw [if_pos hg] at h
        rcases List.mem_cons.mp h with rfl | h
        · exact ⟨⟨u, rfl, hg.1⟩, hg.2, snip, rfl⟩
        · exact ih (count + 1) r h
      · rw [if_neg hg] at h
        exact ih count r h

/-- Every result admitted by the fallback-strategy loop has a
description following the `description or content[:150] + "..."`
policy applied to its own content (its url/title are unchecked). -/
theorem build_fallback_mem_spec (env : FetchEnv) :
    ∀ (divs : List FallbackDiv) (r : SearchResult),
      r ∈ build_fallback env divs →
        ∃ snip, r.description = description_of snip r.content := by
  intro divs
  induction divs with
  | nil => intro r h; simp [build_fallback] at h
  | cons d rest ih =>
    intro r h
    obtain ⟨lnk, snip⟩ := d
    rcases lnk with _ | link
    · simp only [build_fallback] at h
      exact ih r h
    · simp only [build_fallback] at h
      rcases List.mem_cons.mp h with rfl | h
      · exact ⟨snip.getD "", rfl⟩
      · exact ih r h

/-- The primary-strategy loop appends at most `n - count` results when
started with `result_count = count`. -/
theorem build_primary_length_le (env : FetchEnv) (n : Nat) :
    ∀ (tables : List ResultTable) (count : Nat),
      (build_primary env n tables count).length ≤ n - count := by
  intro tables
  induction tables with
  | nil => intro count; simp [build_primary]
  | cons t rest ih =>
    intro count
    obtain ⟨lc, sc⟩ := t
    by_cases hc : n ≤ count
    · simp [build_primary, if_pos hc]
    · rcases lc with _ | (_ | ⟨_ | u, text⟩) <;> rcases sc with _ | snip <;>
        simp only [build_primary, if_neg hc] <;>
        try exact ih count
      by_cases hg : u ≠ "" ∧ text ≠ ""
      · rw [if_pos hg]
        have := ih (count + 1)
        simp only [List.length_cons]
        omega
      · rw [if_neg hg]
        exact ih count

/-- The fallback-strategy loop admits at most one result per parsed
div. -/
theorem build_fallback_length_le (env : FetchEnv) :
    ∀ divs : List FallbackDiv,
      (build_fallback env divs).length ≤ divs.length := by
  intro divs
  induction divs with
  | nil => simp [build_fallback]
  | cons d rest ih =>
    obtain ⟨lnk, snip⟩ := d
    rcases lnk with _ | link
    · simp only [build_fallback, List.length_cons]
      exact Nat.le_succ_of_le ih
    · simp only [build_fallback, List.length_cons]
      exact Nat.succ_le_succ ih

/-! ## Claim theorems -/

/-- Claim C1: if the query is already a key of the cache,
`search_and_validate` returns exactly the stored record, invokes
neither the Fetcher nor the Requester, and leaves the system state
(in particular the cache) unchanged. -/
theorem cache_hit_returns_stored_record (env : RunEnv)
    (sys : SearchValidationSystem) (q : String) (r : QueryRecord)
    (h : List.lookup q sys.search_results_cache = some r) :
    search_and_validate env sys q = ⟨.record r, sys, 0, 0, none⟩ := by
  unfold search_and_validate
  rw [h]

/-- Witness for C1 at a concrete cached query. -/
theorem cache_hit_returns_stored_record_witness :
    search_and_validate
        ⟨⟨.ok [], .ok [], fun _ => .error "net down", "T1"⟩,
          fun _ => none, fun _ => .exn "llm down", "T1"⟩
        ⟨"key", [("q", ⟨"q", "T0", [], .null⟩)]⟩ "q"
      = ⟨.record ⟨"q", "T0", [], .null⟩,
          ⟨"key", [("q", ⟨"q", "T0", [], .null⟩)]⟩, 0, 0, none⟩ :=
  cache_hit_returns_stored_record _ _ _ _ rfl

/-- Claim C2: on a cache miss, if the Fetcher returns the empty list,
`search_and_validate` returns the `"No search results found"` error
envelope, never invokes the Requester, and leaves the system (hence
the cache) unchanged, so the query still has no cache entry. -/
theorem empty_fetch_returns_error_uncached (env : RunEnv)
    (sys : SearchValidationSystem) (q : String)
    (hmiss : List.lookup q sys.search_results_cache = none)
    (hempty : fetch_duckduckgo_lite_results env.fetchEnv q 5 = []) :
    search_and_validate env sys q
        = ⟨.error "No search results found", sys, 1, 0, some 5⟩ ∧
      List.lookup q
        (search_and_validate env sys q).system.search_results_cache = none := by
  have h1 : search_and_validate env sys q
      = ⟨.error "No search results found", sys, 1, 0, some 5⟩ := by
    unfold search_and_validate
    rw [hmiss]
    simp only [hempty]
    rfl
  exact ⟨h1, by rw [h1]; exact hmiss⟩

/-- Witness for C2: fresh system, both strategies parse no listings. -/
theorem empty_fetch_returns_error_uncached_witness :
    search_and_validate
        ⟨⟨.ok [], .ok [], fun _ => .error "net down", "T1"⟩,
          fun _ => none, fun _ => .exn "llm down", "T1"⟩
        (SearchValidationSystem.init "key") "q"
      = ⟨.error "No search results found",
          SearchValidationSystem.init "key", 1, 0, some 5⟩ ∧
      List.lookup "q"
        (search_and_validate
          ⟨⟨.ok [], .ok [], fun _ => .error "net down", "T1"⟩,
            fun _ => none, fun _ => .exn "llm down", "T1"⟩
          (SearchValidationSystem.init "key")
          "q").system.search_results_cache = none :=
  empty_fetch_returns_error_uncached _ _ _ rfl rfl

/-- Claim C4: on an empty result list the Requester returns the
`{"error": "No valid search results to analyze"}` dict and issues zero
LLM calls, whatever the JSON parser and the LLM service would do. -/
theorem validate_empty_results (parse : String → Option JsonVal)
    (llm : String → LLMOutcome) (q : String) :
    validate_with_llama parse llm q [] = (no_results_report, 0) ∧
      no_results_report
        = .obj [("error", .str "No valid search results to analyze")] :=
  ⟨rfl, rfl⟩

/-- Claim C5: when the page request succeeds and a content region is
selected, the Extractor returns the space-join of the region's
heading/paragraph texts truncated to at most 5000 characters, and
whenever the join exceeds 5000 characters the result has exactly 5000
characters. -/
theorem extractor_join_truncation (response : Except String Soup)
    (url : String) (soup : Soup) (paragraphs : List String)
    (hresp : response = .ok soup)
    (hsel : select_main_content soup = some paragraphs) :
    fetch_page_content response url
        = (String.intercalate " " paragraphs).take 5000 ∧
      (fetch_page_content response url).length ≤ 5000 ∧
      (5000 < (String.intercalate " " paragraphs).length →
        (fetch_page_content response url).length = 5000) := by
  subst hresp
  have h1 : fetch_page_content (.ok soup) url
      = (String.intercalate " " paragraphs).take 5000 := by
    simp only [fetch_page_content, hsel]
  refine ⟨h1, ?_, ?_⟩
  · rw [h1]; exact string_length_take_le _ _
  · intro hlong
    rw [h1, string_length_take]
    omega

/-- Witness for C5: a page whose `<main>` region holds two paragraphs. -/
theorem extractor_join_truncation_witness :
    fetch_page_content (.ok ⟨some ["Hello", "world"], none, none, none⟩) "http://a.com"
        = (String.intercalate " " ["Hello", "world"]).take 5000 ∧
      (fetch_page_content (.ok ⟨some ["Hello", "world"], none, none, none⟩) "http://a.com").length ≤ 5000 ∧
      (5000 < (String.intercalate " " ["Hello", "world"]).length →
        (fetch_page_content (.ok ⟨some ["Hello", "world"], none, none, none⟩) "http://a.com").length = 5000) :=
  extractor_join_truncation _ _ ⟨some ["Hello", "world"], none, none, none⟩ _ rfl rfl

/-- Claim C6: when the completion response has a first choice with
non-empty content that the JSON parser rejects, the Requester returns
the placeholder whose `validation` field reads
`"Invalid JSON response from Groq"` and whose `inconsistencies` and
`references` fields are empty arrays. -/
theorem invalid_json_returns_placeholder (parse : String → Option JsonVal)
    (llm : String → LLMOutcome) (q : String) (results : List SearchResult)
    (choice : ChoiceMsg) (rest : List ChoiceMsg) (content : String)
    (hne : results ≠ [])
    (hllm : llm (build_prompt q results) = .ok (choice :: rest))
    (hcontent : choice.content = some content)
    (hnz : content ≠ "")
    (hparse : parse content = none) :
    validate_with_llama parse llm q results = (invalid_json_report, 1) ∧
      invalid_json_report
        = .obj [("summary", .str "Error in validation process"),
                ("validation", .str "Invalid JSON response from Groq"),
                ("inconsistencies", .arr []),
                ("references", .arr [])] := by
  have h0 : results.isEmpty = false := by
    cases results with
    | nil => exact absurd rfl hne
    | cons a l => rfl
  refine ⟨?_, rfl⟩
  simp only [validate_with_llama, h0, hllm, hcontent, Bool.false_eq_true,
    if_false, hparse]
  simp [hnz]

/-- Witness for C6: the LLM answers with the literal content
`"\x7bnot valid json"` and the parser rejects it. -/
theorem invalid_json_returns_placeholder_witness :
    validate_with_llama (fun _ => none) (fun _ => .ok [⟨some "\x7bnot valid json"⟩])
        "test query" [⟨some "http://a.com", "A", "d", "c", "T"⟩]
      = (invalid_json_report, 1) ∧
      invalid_json_report
        = .obj [("summary", .str "Error in validation process"),
                ("validation", .str "Invalid JSON response from Groq"),
                ("inconsistencies", .arr []),
                ("references", .arr [])] :=
  invalid_json_returns_placeholder (fun _ => none)
    (fun _ => .ok [⟨some "\x7bnot valid json"⟩]) "test query"
    [⟨some "http://a.com", "A", "d", "c", "T"⟩]
    ⟨some "\x7bnot valid json"⟩ [] "\x7bnot valid json"
    (by simp) rfl rfl (by simp) rfl

/-- Counterexample to claim C10: the constructor takes only the API
credential, and `search_and_validate` always passes the Fetcher the
default count 5 — for a UI-configured count of 3 the requested number
is still 5. -/
theorem c10_counterexample :
    (search_and_validate
        ⟨⟨.ok [], .ok [], fun _ => .error "net down", "T1"⟩,
          fun _ => none, fun _ => .exn "llm down", "T1"⟩
        (SearchValidationSystem.init "key") "q").fetch_num = some 5 ∧
      (5 : Nat) ≠ 3 :=
  ⟨rfl, by decide⟩

/-- Claim C10 as amended: the core's constructor consumes only the API
credential (there is no desired-result-count configuration), and on a
freshly constructed system `run(query)` always requests the default 5
results from the Fetcher. -/
theorem run_requests_default_five (env : RunEnv) (k q : String) :
    SearchValidationSystem.init k = ⟨k, []⟩ ∧
      (search_and_validate env (SearchValidationSystem.init k) q).fetch_num
        = some 5 := by
  refine ⟨rfl, ?_⟩
  unfold search_and_validate SearchValidationSystem.init
  cases h : (fetch_duckduckgo_lite_results env.fetchEnv q 5).isEmpty <;>
    simp [List.lookup, h]

/-- Counterexample to claim C3: the fallback strategy checks only that
the `result__a` anchor exists, so a listing whose anchor has no `href`
and an empty title is still admitted — the returned result has
`url = none` and `title = ""`. -/
theorem c3_counterexample :
    fetch_duckduckgo_lite_results
        ⟨.ok [], .ok [⟨some ⟨none, ""⟩, none⟩], fun _ => .error "net down", "T"⟩
        "q" 5
      = [⟨none, "", "...", "", "T"⟩] ∧
      (⟨none, "", "...", "", "T"⟩ : SearchResult).url = none ∧
      (⟨none, "", "...", "", "T"⟩ : SearchResult).title = "" :=
  ⟨rfl, rfl, rfl⟩

/-- Claim C3 as amended: every result admitted via the primary
strategy has a present, non-empty `url` and a non-empty `title`
(listings failing the guard are discarded); the fallback strategy does
not enforce this. -/
theorem primary_results_have_nonempty_url_title (env : FetchEnv) (n : Nat)
    (tables : List ResultTable) (count : Nat) (r : SearchResult)
    (h : r ∈ build_primary env n tables count) :
    (∃ u, r.url = some u ∧ u ≠ "") ∧ r.title ≠ "" :=
  ⟨(build_primary_mem_spec env n tables count r h).1,
    (build_primary_mem_spec env n tables count r h).2.1⟩

/-- Witness for the amended C3 at a concrete admitted listing. -/
theorem primary_results_have_nonempty_url_title_witness :
    (∃ u, (⟨some "http://a.com", "A", "snip", "", "T"⟩ : SearchResult).url
        = some u ∧ u ≠ "") ∧
      (⟨some "http://a.com", "A", "snip", "", "T"⟩ : SearchResult).title ≠ "" :=
  primary_results_have_nonempty_url_title
    ⟨.ok [], .ok [], fun _ => .error "net down", "T"⟩ 5
    [⟨some (some ⟨some "http://a.com", "A"⟩), some "snip"⟩] 0
    ⟨some "http://a.com", "A", "snip", "", "T"⟩ (by decide)

/-- Claim C7: under any failure environment — the page request raises,
both search strategies raise, the LLM call raises — the Extractor, the
Fetcher and the Requester still return their specified well-formed
values (empty string, empty result list, error-shaped placeholder
report carrying the failure description in `validation`), never
propagating the exception. -/
theorem no_exception_propagates (response : Except String Soup)
    (url : String) (fenv : FetchEnv) (q : String) (n : Nat)
    (parse : String → Option JsonVal) (llm : String → LLMOutcome)
    (results : List SearchResult) (e1 e2 e3 e4 : String)
    (h1 : response = .error e1)
    (h2 : fenv.primary = .error e2)
    (h3 : fenv.fallback = .error e3)
    (h4 : results ≠ [])
    (h5 : llm (build_prompt q results) = .exn e4) :
    fetch_page_content response url = "" ∧
      fetch_duckduckgo_lite_results fenv q n = [] ∧
      validate_with_llama parse llm q results = (llama_error_report e4, 1) ∧
      llama_error_report e4
        = .obj [("summary", .str "Error in validation process"),
                ("validation", .str e4),
                ("inconsistencies", .arr []),
                ("references", .arr [])] := by
  refine ⟨by rw [h1]; rfl, ?_, ?_, rfl⟩
  · simp [fetch_duckduckgo_lite_results, h2, h3]
  · have h0 : results.isEmpty = false := by
      cases results with
      | nil => exact absurd rfl h4
      | cons a l => rfl
    simp only [validate_with_llama, h0, h5, Bool.false_eq_true, if_false]

/-- Witness for C7: all three stages fail at once on concrete inputs. -/
theorem no_exception_propagates_witness :
    fetch_page_content (.error "timeout") "http://a.com" = "" ∧
      fetch_duckduckgo_lite_results
        ⟨.error "post failed", .error "get failed", fun _ => .error "x", "T"⟩
        "q" 5 = [] ∧
      validate_with_llama (fun _ => none) (fun _ => .exn "rate limited")
        "q" [⟨some "http://a.com", "A", "d", "c", "T"⟩]
        = (llama_error_report "rate limited", 1) ∧
      llama_error_report "rate limited"
        = .obj [("summary", .str "Error in validation process"),
                ("validation", .str "rate limited"),
                ("inconsistencies", .arr []),
                ("references", .arr [])] :=
  no_exception_propagates (.error "timeout") "http://a.com"
    ⟨.error "post failed", .error "get failed", fun _ => .error "x", "T"⟩
    "q" 5 (fun _ => none) (fun _ => .exn "rate limited")
    [⟨some "http://a.com", "A", "d", "c", "T"⟩]
    "timeout" "post failed" "get failed" "rate limited"
    rfl rfl rfl (by simp) rfl

/-- Claim C8: for every query and desired count, the primary strategy
stops once the count is reached, the fallback strategy caps its parsed
listings at the count, and the Fetcher's returned list never exceeds
the count. -/
theorem fetcher_respects_desired_count (env : FetchEnv) (q : String)
    (n : Nat) (tables : List ResultTable) (divs : List FallbackDiv) :
    (build_primary env n tables 0).length ≤ n ∧
      (build_fallback env (divs.take n)).length ≤ n ∧
      (fetch_duckduckgo_lite_results env q n).length ≤ n := by
  have hp : ∀ ts : List ResultTable, (build_primary env n ts 0).length ≤ n := by
    intro ts
    have := build_primary_length_le env n ts 0
    omega
  have hf : ∀ ds : List FallbackDiv,
      (build_fallback env (ds.take n)).length ≤ n := by
    intro ds
    calc (build_fallback env (ds.take n)).length
        ≤ (ds.take n).length := build_fallback_length_le env _
      _ ≤ n := ds.length_take_le n
  refine ⟨hp tables, hf divs, ?_⟩
  unfold fetch_duckduckgo_lite_results
  cases hpr : env.primary with
  | error e =>
    cases hfb : env.fallback with
    | error e2 => simp
    | ok ds => simpa using hf ds
  | ok ts =>
    simp only []
    cases hE : (build_primary env n ts 0).isEmpty with
    | false =>
      simp only [hE, Bool.false_eq_true, if_false]
      exact hp ts
    | true =>
      simp only [hE, if_true]
      cases hfb : env.fallback with
      | error e2 => simpa using hp ts
      | ok ds => exact hf ds

/-- Counterexample to claim C9: a primary listing whose snippet is 200
characters long is admitted with that snippet stored verbatim as the
description — longer than the 153-character bound the content-derived
branch observes, so the description is not truncated in all cases. -/
theorem c9_counterexample :
    (fetch_duckduckgo_lite_results
        ⟨.ok [⟨some (some ⟨some "http://a.com", "A"⟩),
                some (String.mk (List.replicate 200 'x'))⟩],
          .ok [], fun _ => .error "net down", "T"⟩
        "q" 5).map SearchResult.description
      = [String.mk (List.replicate 200 'x')] ∧
      153 < (String.mk (List.replicate 200 'x')).length :=
  ⟨rfl, by decide⟩

/-- Claim C9 as amended: the description of every admitted result (in
both strategies) follows the `snippet or content[:150] + "..."`
policy: it is the listing snippet verbatim when the snippet is
non-empty (with no truncation applied), and otherwise the
150-character prefix of the extracted content followed by `"..."`,
which is bounded by 153 characters. -/
theorem description_policy (s c : String) (env : FetchEnv)
    (n count : Nat) (tables : List ResultTable) (divs : List FallbackDiv)
    (r r' : SearchResult)
    (hs : s ≠ "")
    (hp : r ∈ build_primary env n tables count)
    (hf : r' ∈ build_fallback env divs) :
    description_of s c = s ∧
      description_of "" c = c.take 150 ++ "..." ∧
      (description_of "" c).length ≤ 153 ∧
      (∃ snip, r.description = description_of snip r.content) ∧
      (∃ snip, r'.description = description_of snip r'.content) := by
  refine ⟨by simp [description_of, hs], by simp [description_of], ?_,
    (build_primary_mem_spec env n tables count r hp).2.2,
    build_fallback_mem_spec env divs r' hf⟩
  have h1 : description_of "" c = c.take 150 ++ "..." := by
    simp [description_of]
  rw [h1, String.length_append]
  have h2 := string_length_take_le c 150
  have h3 : ("..." : String).length = 3 := rfl
  omega

/-- Witness for the amended C9 at concrete listings of both
strategies. -/
theorem description_policy_witness :
    description_of "snip" "content" = "snip" ∧
      description_of "" "content" = ("content" : String).take 150 ++ "..." ∧
      (description_of "" "content").length ≤ 153 ∧
      (∃ snip, (⟨some "http://a.com", "A", "snip", "", "T"⟩ :
          SearchResult).description
        = description_of snip
            (⟨some "http://a.com", "A", "snip", "", "T"⟩ :
              SearchResult).content) ∧
      (∃ snip, (⟨some "http://b.com", "B", "bs", "", "T"⟩ :
          SearchResult).description
        = description_of snip
            (⟨some "http://b.com", "B", "bs", "", "T"⟩ :
              SearchResult).content) :=
  description_policy "snip" "content"
    ⟨.ok [], .ok [], fun _ => .error "net down", "T"⟩ 5 0
    [⟨some (some ⟨some "http://a.com", "A"⟩), some "snip"⟩]
    [⟨some ⟨some "http://b.com", "B"⟩, some "bs"⟩]
    ⟨some "http://a.com", "A", "snip", "", "T"⟩
    ⟨some "http://b.com", "B", "bs", "", "T"⟩
    (by decide) (by decide) (by decide)

end LlamaSearch
